import Mathlib

/-!
Verification development for the settings entity subsystem of the dtlpy SDK
(`dtlpy/entities/setting.py`): the `SettingScope`, `BaseSetting`, `Setting`
and `UserSetting` classes and their JSON (de)serialization contract.

The embedding is shallow: Python JSON values (the values produced by
`json.loads` and passed around as dicts/lists/scalars) are modelled by the
inductive type `J`; Python dicts are association lists with unique keys,
with `dfind`/`dget`/`dset` modelling `k in d` plus `d[k]`, `d.get(k, None)`
and `d[k] = v` (insertion order preserved, assignment to an existing key
replaces in place).  Fallible constructors (`raise Exception(...)`,
`AttributeError` from calling `.get` on a non-dict) are modelled with
`Except String`.  The `warnings.warn` deprecation side effect is modelled
as an explicitly returned list of warning messages.  The external
repository collaborator (`repositories.Settings`, bound in the constructor
from `client_api`/`project`/`org`) performs network I/O only and carries no
serialization state; it and the three context fields are omitted from the
entity records.
-/

namespace Dtlpy

/-- A decoded JSON / Python value: `None`, `bool`, `str`, numbers (modelled
as integers), lists and dicts (association lists in insertion order). -/
inductive J : Type where
  | null : J
  | bool : Bool → J
  | str : String → J
  | num : Int → J
  | arr : List J → J
  | obj : List (String × J) → J

/-- Python `v is None`. -/
def J.isNull : J → Bool
  | J.null => true
  | _ => false

/-- Python truthiness (`if v:`): `None`, `False`, `""`, `0`, `[]`, `{}` are
falsy, everything else truthy. -/
def J.truthy : J → Bool
  | J.null => false
  | J.bool b => b
  | J.str s => s ≠ ""
  | J.num n => n ≠ 0
  | J.arr xs => !xs.isEmpty
  | J.obj kvs => !kvs.isEmpty

/-- Membership / lookup in a dict: `some v` when `k` is a key (first
occurrence), `none` otherwise.  Models `k in d` and `d[k]`. -/
def dfind : List (String × J) → String → Option J
  | [], _ => none
  | (k, v) :: rest, key => if key = k then some v else dfind rest key

/-- Python `d.get(k, None)`: the value under `k`, or `None` when absent. -/
def dget (d : List (String × J)) (k : String) : J :=
  (dfind d k).getD J.null

/-- Python `d[k] = v`: replace the value at the first occurrence of `k`
keeping its position, or append a new entry at the end. -/
def dset : List (String × J) → String → J → List (String × J)
  | [], key, v => [(key, v)]
  | (k, w) :: rest, key, v =>
      if key = k then (key, v) :: rest else (k, w) :: dset rest key v

/-- Escape of one character inside a JSON string literal, as `json.dumps`
renders it (quote and backslash escaped; other characters of the settings
wire format are emitted verbatim). -/
def escChar (c : Char) : String :=
  if c = '\\' then "\\\\" else if c = '"' then "\\\"" else String.singleton c

/-- Escape a whole string for a JSON string literal. -/
def escStr (s : String) : String :=
  String.join (s.toList.map escChar)

mutual

/-- Python `json.dumps(v)` with its default separators: `", "` between
items and `": "` after keys. -/
def J.dumps : J → String
  | J.null => "null"
  | J.bool b => if b then "true" else "false"
  | J.str s => "\"" ++ escStr s ++ "\""
  | J.num n => toString n
  | J.arr xs => "[" ++ dumpsArr xs ++ "]"
  | J.obj kvs => "\x7b" ++ dumpsObj kvs ++ "\x7d"

/-- Comma-joined rendering of a JSON array body. -/
def dumpsArr : List J → String
  | [] => ""
  | [x] => J.dumps x
  | x :: y :: rest => J.dumps x ++ ", " ++ dumpsArr (y :: rest)

/-- Comma-joined rendering of a JSON object body. -/
def dumpsObj : List (String × J) → String
  | [] => ""
  | [(k, v)] => "\"" ++ escStr k ++ "\": " ++ J.dumps v
  | (k, v) :: p :: rest =>
      "\"" ++ escStr k ++ "\": " ++ J.dumps v ++ ", " ++ dumpsObj (p :: rest)

end

/-- The string value of the `SettingsTypes.FEATURE_FLAG` enum member. -/
def SettingsTypes.FEATURE_FLAG : J := J.str "feature_flag"

/-- The string value of the `SettingsTypes.USER_SETTINGS` enum member. -/
def SettingsTypes.USER_SETTINGS : J := J.str "user_settings"

/-- `SettingScope`: where a setting applies.  Each field holds whatever
value deserialization put there (`None` when absent), so fields are typed
as `J`. -/
structure SettingScope : Type where
  type : J
  id : J
  role : J
  prevent_override : J
  visible : J

/-- `SettingScope.from_json(_json)`.  The Python code calls
`_json.get(...)` on its argument, which succeeds exactly when the argument
is a dict (missing keys map to `None`) and raises `AttributeError`
otherwise — in particular on `None`, which is what `BaseSetting.from_json`
passes when the `scope` key is absent. -/
def SettingScope.from_json (j : J) : Except String SettingScope :=
  match j with
  | J.obj kvs =>
      Except.ok (SettingScope.mk (dget kvs "type") (dget kvs "id")
        (dget kvs "role") (dget kvs "preventOverride") (dget kvs "visible"))
  | _ => Except.error "AttributeError: object has no attribute get"

/-- `SettingScope.to_json`: starts from an empty dict and assigns each of
the five fields only when its value is truthy. -/
def SettingScope.to_json (s : SettingScope) : List (String × J) :=
  let d : List (String × J) := []
  let d := if s.type.truthy then dset d "type" s.type else d
  let d := if s.id.truthy then dset d "id" s.id else d
  let d := if s.role.truthy then dset d "role" s.role else d
  let d := if s.prevent_override.truthy then dset d "preventOverride" s.prevent_override else d
  let d := if s.visible.truthy then dset d "visible" s.visible else d
  d

/-- `BaseSetting`: a named configuration value attached to a scope.  The
`client_api`/`project`/`org` context fields and the repository collaborator
built from them are external I/O plumbing and are not modelled. -/
structure BaseSetting : Type where
  default_value : J
  name : J
  value : J
  value_type : J
  scope : SettingScope
  metadata : J
  setting_type : J
  id : J

/-- `BaseSetting.__init__`: raises `Exception` when both `value` and
`default_value` are `None`; otherwise stores every field as given. -/
def BaseSetting.make (default_value value name value_type : J)
    (scope : SettingScope) (metadata setting_type id : J) :
    Except String BaseSetting :=
  if value.isNull && default_value.isNull then
    Except.error "Must provide either value or default_value"
  else
    Except.ok (BaseSetting.mk default_value name value value_type scope
      metadata setting_type id)

/-- `BaseSetting.from_json(_json, ...)`: builds the scope from
`_json.get('scope', None)` first, then calls the constructor with each
field read via `.get(key, None)`. -/
def BaseSetting.from_json (d : List (String × J)) : Except String BaseSetting :=
  match SettingScope.from_json (dget d "scope") with
  | Except.error e => Except.error e
  | Except.ok scope =>
      BaseSetting.make (dget d "defaultValue") (dget d "value")
        (dget d "name") (dget d "valueType") scope (dget d "metadata")
        (dget d "settingType") (dget d "id")

/-- The body of the per-display-scope loop of
`BaseSetting.__slot_to_db_slot`: when the display scope is a dict with a
`filter` key whose value is itself a dict, that value is replaced by its
`json.dumps` string. -/
def fixDisplayScope (d : J) : J :=
  match d with
  | J.obj kvs =>
      match dfind kvs "filter" with
      | some (J.obj fkvs) =>
          J.obj (dset kvs "filter" (J.str (J.obj fkvs).dumps))
      | _ => d
  | _ => d

/-- The filter rewrite applied by `__slot_to_db_slot` to one `filter`
value: dicts are replaced by their `json.dumps` string, everything else is
left unchanged. -/
def fixFilter (f : J) : J :=
  match f with
  | J.obj fkvs => J.str (J.obj fkvs).dumps
  | _ => f

/-- `BaseSetting.__slot_to_db_slot(slot)`: when `displayScopes` is a key of
the slot and its value is truthy, rewrite each display scope of the list by
`fixDisplayScope`.  (In Python the rewrite mutates the slot in place; here
the updated slot is returned.)  Slots that are not dicts, and truthy
non-list `displayScopes` values, are modelled as left unchanged; the
`slotsOk` predicate below delimits the inputs on which the Python loop runs
without a `TypeError` and the model is exact. -/
def slot_to_db_slot (slot : J) : J :=
  match slot with
  | J.obj kvs =>
      match dfind kvs "displayScopes" with
      | some scopes =>
          if scopes.truthy then
            match scopes with
            | J.arr ds =>
                J.obj (dset kvs "displayScopes" (J.arr (ds.map fixDisplayScope)))
            | _ => slot
          else slot
      | none => slot
  | _ => slot

/-- The metadata normalization performed at the top of
`BaseSetting.to_json`: when `metadata` is a dict with a `slots` key holding
a list, every slot is rewritten by `slot_to_db_slot`; otherwise `metadata`
is untouched. -/
def normMetadata (m : J) : J :=
  match m with
  | J.obj kvs =>
      match dfind kvs "slots" with
      | some (J.arr l) => J.obj (dset kvs "slots" (J.arr (l.map slot_to_db_slot)))
      | _ => m
  | _ => m

/-- A display scope on which the Python filter loop is exact: a dict. -/
def goodDisplayScope (d : J) : Bool :=
  match d with
  | J.obj _ => true
  | _ => false

/-- A slot on which `__slot_to_db_slot` runs without `TypeError` and the
model is exact: a dict whose `displayScopes` value, when present and
truthy, is a list of dicts. -/
def goodSlot (slot : J) : Bool :=
  match slot with
  | J.obj kvs =>
      match dfind kvs "displayScopes" with
      | some scopes =>
          if scopes.truthy then
            match scopes with
            | J.arr ds => ds.all goodDisplayScope
            | _ => false
          else true
      | none => true
  | _ => false

/-- Metadata of the wire-format shape handled by `to_json`: either `None`,
or a dict whose `slots` value, when present and a list, contains only good
slots.  On this domain the Python normalization raises no `TypeError` and
the model is exact. -/
def slotsOk (m : J) : Bool :=
  match m with
  | J.null => true
  | J.obj kvs =>
      match dfind kvs "slots" with
      | some (J.arr l) => l.all goodSlot
      | _ => true
  | _ => false

/-- `BaseSetting.to_json` as a state transformer: the Python method first
rewrites `self.metadata` in place (slot normalization), then emits the
output dict; the returned pair is (output, entity after the call). -/
def BaseSetting.to_json_run (x : BaseSetting) : (List (String × J)) × BaseSetting :=
  let m := normMetadata x.metadata
  let x' := BaseSetting.mk x.default_value x.name x.value x.value_type
    x.scope m x.setting_type x.id
  let d : List (String × J) :=
    [("name", x.name), ("valueType", x.value_type),
     ("scope", J.obj x.scope.to_json), ("settingType", x.setting_type),
     ("id", x.id)]
  let d := if m.isNull then d else dset d "metadata" m
  let d := if x.value.isNull then d else dset d "value" x.value
  let d := if x.default_value.isNull then d else dset d "defaultValue" x.default_value
  (d, x')

/-- The output of `BaseSetting.to_json`. -/
def BaseSetting.to_json (x : BaseSetting) : List (String × J) :=
  x.to_json_run.1

/-- `Setting` (extends `BaseSetting`): adds UI-facing descriptive
fields. -/
structure Setting extends BaseSetting where
  description : J
  inputs : J
  icon : J
  section_name : J
  hint : J
  sub_section_name : J

/-- `Setting.__init__`: delegates to `BaseSetting.__init__` with
`setting_type` fixed to `SettingsTypes.USER_SETTINGS`, then stores the
presentation fields.  Argument order follows the Python signature. -/
def Setting.make (value name value_type : J) (scope : SettingScope)
    (section_name default_value inputs metadata description icon id
      sub_section_name hint : J) : Except String Setting :=
  match BaseSetting.make default_value value name value_type scope metadata
      SettingsTypes.USER_SETTINGS id with
  | Except.error e => Except.error e
  | Except.ok b =>
      Except.ok (Setting.mk b description inputs icon section_name hint
        sub_section_name)

/-- `Setting.from_json(_json, ...)`: like the base version but also reads
the presentation keys; note it never reads `settingType` from the input. -/
def Setting.from_json (d : List (String × J)) : Except String Setting :=
  match SettingScope.from_json (dget d "scope") with
  | Except.error e => Except.error e
  | Except.ok scope =>
      Setting.make (dget d "value") (dget d "name") (dget d "valueType")
        scope (dget d "sectionName") (dget d "defaultValue")
        (dget d "inputs") (dget d "metadata") (dget d "description")
        (dget d "icon") (dget d "id") (dget d "subSectionName")
        (dget d "hint")

/-- `Setting.to_json` as a state transformer: runs the base serialization
(which normalizes `self.metadata`), then conditionally assigns each
presentation key, and finally re-assigns `id` when non-null. -/
def Setting.to_json_run (s : Setting) : (List (String × J)) × Setting :=
  let p := s.toBaseSetting.to_json_run
  let d := p.1
  let d := if s.description.isNull then d else dset d "description" s.description
  let d := if s.inputs.isNull then d else dset d "inputs" s.inputs
  let d := if s.icon.isNull then d else dset d "icon" s.icon
  let d := if s.section_name.isNull then d else dset d "sectionName" s.section_name
  let d := if s.hint.isNull then d else dset d "hint" s.hint
  let d := if s.sub_section_name.isNull then d else dset d "subSectionName" s.sub_section_name
  let d := if s.toBaseSetting.id.isNull then d else dset d "id" s.toBaseSetting.id
  (d, Setting.mk p.2 s.description s.inputs s.icon s.section_name s.hint
    s.sub_section_name)

/-- The output of `Setting.to_json`. -/
def Setting.to_json (s : Setting) : List (String × J) :=
  s.to_json_run.1

/-- The deprecation message passed to `warnings.warn` by
`UserSetting.__init__`. -/
def userSettingDeprecationMsg : String :=
  "UserSetting will be Deprecation from version 1.62 use Setting"

/-- `UserSetting.__init__`: emits the deprecation warning, then delegates
every argument to `Setting.__init__`.  The first component is the list of
warnings emitted, the second the constructed entity (a `Setting`-shaped
record, since `UserSetting` adds no field). -/
def UserSetting.make (default_value value name value_type : J)
    (scope : SettingScope) (section_name inputs metadata description icon id
      sub_section_name hint : J) : List String × Except String Setting :=
  ([userSettingDeprecationMsg],
   Setting.make value name value_type scope section_name default_value
     inputs metadata description icon id sub_section_name hint)

/-- `UserSetting` declares no `from_json` of its own: it inherits
`Setting.from_json` (which returns a `Setting`). -/
def UserSetting.from_json (d : List (String × J)) : Except String Setting :=
  Setting.from_json d

/-! ### Dictionary lemmas -/

theorem dfind_dset (d : List (String × J)) (k : String) (v : J) (k' : String) :
    dfind (dset d k v) k' = if k' = k then some v else dfind d k' := by
  induction d with
  | nil =>
      by_cases h : k' = k <;> simp [dset, dfind, h]
  | cons hd tl ih =>
      obtain ⟨a, w⟩ := hd
      by_cases hka : k = a
      · subst hka
        by_cases h : k' = k <;> simp [dset, dfind, h]
      · by_cases h : k' = a
        · subst h
          simp [dset, dfind, hka, Ne.symm hka, ih]
        · simp [dset, dfind, hka, h, ih]

theorem dset_dset (d : List (String × J)) (k : String) (v w : J) :
    dset (dset d k v) k w = dset d k w := by
  induction d with
  | nil => simp [dset]
  | cons hd tl ih =>
      obtain ⟨a, b⟩ := hd
      by_cases h : k = a <;> simp [dset, h, ih]

theorem dfind_append_some (d₁ d₂ : List (String × J)) (k : String) (v : J)
    (h : dfind d₁ k = some v) : dfind (d₁ ++ d₂) k = some v := by
  induction d₁ with
  | nil => simp [dfind] at h
  | cons hd tl ih =>
      obtain ⟨a, b⟩ := hd
      by_cases hk : k = a
      · simp [dfind, hk] at h ⊢; exact h
      · simp [dfind, hk] at h ⊢; exact ih h

theorem dfind_append_none (d₁ d₂ : List (String × J)) (k : String)
    (h : dfind d₁ k = none) : dfind (d₁ ++ d₂) k = dfind d₂ k := by
  induction d₁ with
  | nil => simp [dfind]
  | cons hd tl ih =>
      obtain ⟨a, b⟩ := hd
      by_cases hk : k = a
      · simp [dfind, hk] at h
      · simp [dfind, hk] at h ⊢; exact ih h

theorem isNull_iff (v : J) : v.isNull = true ↔ v = J.null := by
  cases v <;> simp [J.isNull]

theorem isNull_false_iff (v : J) : v.isNull = false ↔ v ≠ J.null := by
  cases v <;> simp [J.isNull]

/-! ### SettingScope serialization shape -/

/-- The contribution of one field to `SettingScope.to_json`: a singleton
entry when the value is truthy, nothing otherwise. -/
def piece (k : String) (v : J) : List (String × J) :=
  if v.truthy then [(k, v)] else []

theorem scope_to_json_eq (s : SettingScope) :
    s.to_json = piece "type" s.type ++ piece "id" s.id ++ piece "role" s.role
      ++ piece "preventOverride" s.prevent_override
      ++ piece "visible" s.visible := by
  unfold SettingScope.to_json piece
  by_cases h1 : s.type.truthy <;> by_cases h2 : s.id.truthy <;>
    by_cases h3 : s.role.truthy <;> by_cases h4 : s.prevent_override.truthy <;>
    by_cases h5 : s.visible.truthy <;>
    simp [h1, h2, h3, h4, h5, dset]

theorem dfind_piece (k k' : String) (v : J) :
    dfind (piece k v) k' = if k' = k ∧ v.truthy = true then some v else none := by
  unfold piece
  by_cases hv : v.truthy <;> by_cases hk : k' = k <;> simp [dfind, hv, hk]

theorem piece_reconstruct (k : String) (v : J) :
    piece k (if v.truthy then v else J.null) = piece k v := by
  by_cases h : v.truthy
  · simp [h]
  · simp [piece, h, show J.truthy J.null = false from rfl]

/-- Looking up one of the five scope keys in the serialized scope yields
the field exactly when it is truthy. -/
theorem dfind_scope_to_json (s : SettingScope) :
    dfind s.to_json "type" = (if s.type.truthy then some s.type else none) ∧
    dfind s.to_json "id" = (if s.id.truthy then some s.id else none) ∧
    dfind s.to_json "role" = (if s.role.truthy then some s.role else none) ∧
    dfind s.to_json "preventOverride"
      = (if s.prevent_override.truthy then some s.prevent_override else none) ∧
    dfind s.to_json "visible"
      = (if s.visible.truthy then some s.visible else none) := by
  rw [scope_to_json_eq]
  refine ⟨?_, ?_, ?_, ?_, ?_⟩ <;>
  · by_cases h1 : s.type.truthy <;> by_cases h2 : s.id.truthy <;>
      by_cases h3 : s.role.truthy <;>
      by_cases h4 : s.prevent_override.truthy <;>
      by_cases h5 : s.visible.truthy <;>
      simp [piece, dfind, h1, h2, h3, h4, h5]

/-- The scope obtained by deserializing `s.to_json`: truthy fields survive,
falsy-but-present fields come back as `None`. -/
def reconstructScope (s : SettingScope) : SettingScope :=
  SettingScope.mk
    (if s.type.truthy then s.type else J.null)
    (if s.id.truthy then s.id else J.null)
    (if s.role.truthy then s.role else J.null)
    (if s.prevent_override.truthy then s.prevent_override else J.null)
    (if s.visible.truthy then s.visible else J.null)

theorem dget_scope_to_json (s : SettingScope) :
    dget s.to_json "type" = (if s.type.truthy then s.type else J.null) ∧
    dget s.to_json "id" = (if s.id.truthy then s.id else J.null) ∧
    dget s.to_json "role" = (if s.role.truthy then s.role else J.null) ∧
    dget s.to_json "preventOverride"
      = (if s.prevent_override.truthy then s.prevent_override else J.null) ∧
    dget s.to_json "visible"
      = (if s.visible.truthy then s.visible else J.null) := by
  obtain ⟨ht, hi, hr, hp, hv⟩ := dfind_scope_to_json s
  refine ⟨?_, ?_, ?_, ?_, ?_⟩
  · unfold dget; rw [ht]; by_cases h : s.type.truthy <;> simp [h]
  · unfold dget; rw [hi]; by_cases h : s.id.truthy <;> simp [h]
  · unfold dget; rw [hr]; by_cases h : s.role.truthy <;> simp [h]
  · unfold dget; rw [hp]; by_cases h : s.prevent_override.truthy <;> simp [h]
  · unfold dget; rw [hv]; by_cases h : s.visible.truthy <;> simp [h]

/-- Deserializing a serialized scope succeeds and yields exactly the
reconstructed scope. -/
theorem scope_from_to (s : SettingScope) :
    SettingScope.from_json (J.obj s.to_json) = Except.ok (reconstructScope s) := by
  obtain ⟨ht, hi, hr, hp, hv⟩ := dget_scope_to_json s
  simp [SettingScope.from_json, reconstructScope, ht, hi, hr, hp, hv]

/-- Re-serializing the reconstructed scope gives back the original
serialization: the scope round-trip is stable at the wire level. -/
theorem reconstruct_to_json (s : SettingScope) :
    (reconstructScope s).to_json = s.to_json := by
  rw [scope_to_json_eq, scope_to_json_eq]
  simp only [reconstructScope]
  rw [piece_reconstruct, piece_reconstruct, piece_reconstruct,
    piece_reconstruct, piece_reconstruct]

/-! ### Normalization lemmas -/

theorem fixDisplayScope_idem (d : J) :
    fixDisplayScope (fixDisplayScope d) = fixDisplayScope d := by
  cases d with
  | obj kvs =>
      unfold fixDisplayScope
      cases h : dfind kvs "filter" with
      | none => simp [h]
      | some f =>
          cases f <;> simp [h, dfind_dset]
  | _ => rfl

theorem truthy_arr_map (f : J → J) (l : List J) :
    (J.arr (l.map f)).truthy = (J.arr l).truthy := by
  cases l <;> simp [J.truthy]

theorem slot_to_db_slot_idem (slot : J) :
    slot_to_db_slot (slot_to_db_slot slot) = slot_to_db_slot slot := by
  cases slot with
  | obj kvs =>
      unfold slot_to_db_slot
      cases h : dfind kvs "displayScopes" with
      | none => simp [h]
      | some scopes =>
          by_cases ht : scopes.truthy
          · cases scopes with
            | arr ds =>
                simp only [h, ht, if_true]
                simp [dfind_dset, truthy_arr_map, ht, dset_dset, List.map_map]
                rw [show fixDisplayScope ∘ fixDisplayScope = fixDisplayScope
                  from funext fixDisplayScope_idem]
            | _ => simp [h, ht]
          · simp [h, ht]
  | _ => rfl

theorem normMetadata_idem (m : J) :
    normMetadata (normMetadata m) = normMetadata m := by
  cases m with
  | obj kvs =>
      unfold normMetadata
      cases h : dfind kvs "slots" with
      | none => simp [h]
      | some v =>
          cases v with
          | arr l =>
              simp [h, dfind_dset, dset_dset, List.map_map]
              rw [show slot_to_db_slot ∘ slot_to_db_slot = slot_to_db_slot
                from funext slot_to_db_slot_idem]
          | _ => simp [h]
  | _ => rfl

theorem normMetadata_isNull (m : J) :
    (normMetadata m).isNull = m.isNull := by
  cases m with
  | obj kvs =>
      unfold normMetadata
      cases h : dfind kvs "slots" with
      | none => simp [h]
      | some v => cases v <;> simp [h, J.isNull]
  | _ => rfl

/-! ### BaseSetting serialization shape -/

/-- `BaseSetting.to_json` written as one concatenation: the five
unconditional keys in order, then the three conditional keys. -/
theorem base_to_json_eq (x : BaseSetting) :
    x.to_json =
      [("name", x.name), ("valueType", x.value_type),
       ("scope", J.obj x.scope.to_json), ("settingType", x.setting_type),
       ("id", x.id)]
      ++ (if (normMetadata x.metadata).isNull then []
          else [("metadata", normMetadata x.metadata)])
      ++ (if x.value.isNull then [] else [("value", x.value)])
      ++ (if x.default_value.isNull then [] else [("defaultValue", x.default_value)]) := by
  unfold BaseSetting.to_json BaseSetting.to_json_run
  by_cases hm : (normMetadata x.metadata).isNull <;>
    by_cases hv : x.value.isNull <;>
    by_cases hd : x.default_value.isNull <;>
    simp [hm, hv, hd, dset]

theorem to_json_post (x : BaseSetting) :
    x.to_json_run.2 = BaseSetting.mk x.default_value x.name x.value
      x.value_type x.scope (normMetadata x.metadata) x.setting_type x.id := rfl

/-- Lookup of every relevant key in the base serialization. -/
theorem dfind_base (x : BaseSetting) :
    dfind x.to_json "name" = some x.name ∧
    dfind x.to_json "valueType" = some x.value_type ∧
    dfind x.to_json "scope" = some (J.obj x.scope.to_json) ∧
    dfind x.to_json "settingType" = some x.setting_type ∧
    dfind x.to_json "id" = some x.id ∧
    dfind x.to_json "metadata"
      = (if (normMetadata x.metadata).isNull then none
         else some (normMetadata x.metadata)) ∧
    dfind x.to_json "value" = (if x.value.isNull then none else some x.value) ∧
    dfind x.to_json "defaultValue"
      = (if x.default_value.isNull then none else some x.default_value) := by
  rw [base_to_json_eq]
  refine ⟨?_, ?_, ?_, ?_, ?_, ?_, ?_, ?_⟩ <;>
  · by_cases hm : (normMetadata x.metadata).isNull <;>
      by_cases hv : x.value.isNull <;>
      by_cases hd : x.default_value.isNull <;>
      simp [hm, hv, hd, dfind]

/-- Keys other than the eight emitted ones are absent from the base
serialization. -/
theorem dfind_base_other (x : BaseSetting) (k : String)
    (h1 : k ≠ "name") (h2 : k ≠ "valueType") (h3 : k ≠ "scope")
    (h4 : k ≠ "settingType") (h5 : k ≠ "id") (h6 : k ≠ "metadata")
    (h7 : k ≠ "value") (h8 : k ≠ "defaultValue") :
    dfind x.to_json k = none := by
  rw [base_to_json_eq]
  by_cases hm : (normMetadata x.metadata).isNull <;>
    by_cases hv : x.value.isNull <;>
    by_cases hd : x.default_value.isNull <;>
    simp [hm, hv, hd, dfind, h1, h2, h3, h4, h5, h6, h7, h8]

/-- `d.get(key, None)` readback of every field from the base
serialization. -/
theorem dget_base (x : BaseSetting) :
    dget x.to_json "name" = x.name ∧
    dget x.to_json "valueType" = x.value_type ∧
    dget x.to_json "scope" = J.obj x.scope.to_json ∧
    dget x.to_json "settingType" = x.setting_type ∧
    dget x.to_json "id" = x.id ∧
    dget x.to_json "metadata" = normMetadata x.metadata ∧
    dget x.to_json "value" = x.value ∧
    dget x.to_json "defaultValue" = x.default_value := by
  obtain ⟨h1, h2, h3, h4, h5, h6, h7, h8⟩ := dfind_base x
  refine ⟨?_, ?_, ?_, ?_, ?_, ?_, ?_, ?_⟩
  · unfold dget; rw [h1]; rfl
  · unfold dget; rw [h2]; rfl
  · unfold dget; rw [h3]; rfl
  · unfold dget; rw [h4]; rfl
  · unfold dget; rw [h5]; rfl
  · unfold dget; rw [h6]
    by_cases hm : (normMetadata x.metadata).isNull
    · simp [hm, ((isNull_iff _).mp hm).symm]
    · simp [hm]
  · unfold dget; rw [h7]
    by_cases hv : x.value.isNull
    · simp [hv, ((isNull_iff _).mp hv).symm]
    · simp [hv]
  · unfold dget; rw [h8]
    by_cases hd : x.default_value.isNull
    · simp [hd, ((isNull_iff _).mp hd).symm]
    · simp [hd]

/-- The entity obtained by deserializing `x.to_json`. -/
def reconstructBase (x : BaseSetting) : BaseSetting :=
  BaseSetting.mk x.default_value x.name x.value x.value_type
    (reconstructScope x.scope) (normMetadata x.metadata) x.setting_type x.id

/-- Deserializing a serialized valid base setting succeeds and yields the
reconstructed entity. -/
theorem base_from_to (x : BaseSetting)
    (h : (x.value.isNull && x.default_value.isNull) = false) :
    BaseSetting.from_json x.to_json = Except.ok (reconstructBase x) := by
  obtain ⟨h1, h2, h3, h4, h5, h6, h7, h8⟩ := dget_base x
  unfold BaseSetting.from_json
  rw [h3, scope_from_to]
  unfold BaseSetting.make reconstructBase
  rw [h1, h2, h4, h5, h6, h7, h8]
  simp [h]

/-- Re-serializing the reconstructed entity reproduces the original
serialization. -/
theorem base_reconstruct_to_json (x : BaseSetting) :
    (reconstructBase x).to_json = x.to_json := by
  rw [base_to_json_eq, base_to_json_eq]
  simp only [reconstructBase]
  rw [reconstruct_to_json, normMetadata_idem]

/-! ### Concrete example entities -/

/-- The input JSON of the spec's worked example. -/
def exIn : List (String × J) :=
  [("name", J.str "flag1"), ("value", J.bool true),
   ("valueType", J.str "boolean"), ("settingType", J.str "feature_flag"),
   ("scope", J.obj [("type", J.str "project"), ("id", J.str "p1")])]

/-- The expected output JSON of the spec's worked example. -/
def exOut : List (String × J) :=
  [("name", J.str "flag1"), ("valueType", J.str "boolean"),
   ("scope", J.obj [("type", J.str "project"), ("id", J.str "p1")]),
   ("settingType", J.str "feature_flag"), ("id", J.null),
   ("value", J.bool true)]

/-- A scope holding a falsy-but-present boolean (`visible=False`). -/
def exScopeFalsy : SettingScope :=
  SettingScope.mk (J.str "project") (J.str "p1") J.null J.null (J.bool false)

/-- A valid base setting whose scope has `visible=False`. -/
def exFalsy : BaseSetting :=
  BaseSetting.mk J.null (J.str "flag1") (J.bool true) (J.str "boolean")
    exScopeFalsy J.null (J.str "feature_flag") J.null

/-! ### Claims -/

/-- C1: for every `BaseSetting` built from valid inputs (value and
default_value not both null, metadata of the wire-format slot shape),
`from_json (to_json x)` succeeds and its `to_json` equals the original
serialization; nevertheless the entity round-trip is not lossless for
falsy-but-present scope booleans: a scope with `visible=False` is
reconstructed with `visible=None`. -/
theorem claim_C1 :
    (∀ x : BaseSetting, (x.value.isNull && x.default_value.isNull) = false →
      slotsOk x.metadata = true →
      ∃ y, BaseSetting.from_json x.to_json = Except.ok y ∧
        y.to_json = x.to_json) ∧
    (∃ x y : BaseSetting, BaseSetting.from_json x.to_json = Except.ok y ∧
      x.scope.visible = J.bool false ∧ y.scope.visible = J.null) := by
  constructor
  · intro x h _
    exact ⟨reconstructBase x, base_from_to x h, base_reconstruct_to_json x⟩
  · exact ⟨exFalsy, reconstructBase exFalsy, base_from_to exFalsy rfl, rfl, rfl⟩

/-- Witness for C1 at the concrete entity `exFalsy`. -/
theorem claim_C1_witness :
    ∃ y, BaseSetting.from_json exFalsy.to_json = Except.ok y ∧
      y.to_json = exFalsy.to_json :=
  claim_C1.1 exFalsy rfl rfl

/-- C2: `BaseSetting.to_json` always contains `name`, `valueType`, `scope`
(the nested scope serialization), `settingType` and `id` (even when null),
and contains `metadata`/`value`/`defaultValue` exactly when the field is
non-null; and on the spec's concrete example `from_json` followed by
`to_json` yields exactly the expected dict. -/
theorem claim_C2 :
    (∀ x : BaseSetting,
      dfind x.to_json "name" = some x.name ∧
      dfind x.to_json "valueType" = some x.value_type ∧
      dfind x.to_json "scope" = some (J.obj x.scope.to_json) ∧
      dfind x.to_json "settingType" = some x.setting_type ∧
      dfind x.to_json "id" = some x.id ∧
      ((dfind x.to_json "metadata").isSome ↔ x.metadata ≠ J.null) ∧
      ((dfind x.to_json "value").isSome ↔ x.value ≠ J.null) ∧
      ((dfind x.to_json "defaultValue").isSome ↔ x.default_value ≠ J.null)) ∧
    (BaseSetting.from_json exIn).map BaseSetting.to_json = Except.ok exOut := by
  constructor
  · intro x
    obtain ⟨h1, h2, h3, h4, h5, h6, h7, h8⟩ := dfind_base x
    rw [normMetadata_isNull] at h6
    refine ⟨h1, h2, h3, h4, h5, ?_, ?_, ?_⟩
    · by_cases hm : x.metadata.isNull
      · simp [h6, hm, (isNull_iff _).mp hm, J.isNull]
      · simp [h6, hm, (isNull_false_iff _).mp (by simpa using hm)]
    · by_cases hv : x.value.isNull
      · simp [h7, hv, (isNull_iff _).mp hv, J.isNull]
      · simp [h7, hv, (isNull_false_iff _).mp (by simpa using hv)]
    · by_cases hd : x.default_value.isNull
      · simp [h8, hd, (isNull_iff _).mp hd, J.isNull]
      · simp [h8, hd, (isNull_false_iff _).mp (by simpa using hd)]
  · rfl

/-- C3: the `BaseSetting` constructor fails with the validation error
exactly when both `value` and `default_value` are null, and otherwise
succeeds storing every field as given, with no further validation. -/
theorem claim_C3 (dv v n vt : J) (sc : SettingScope) (m st i : J) :
    ((v.isNull && dv.isNull) = true →
      BaseSetting.make dv v n vt sc m st i
        = Except.error "Must provide either value or default_value") ∧
    ((v.isNull && dv.isNull) = false →
      BaseSetting.make dv v n vt sc m st i
        = Except.ok (BaseSetting.mk dv n v vt sc m st i)) := by
  constructor <;> intro h <;> simp [BaseSetting.make, h]

/-- Witness for C3: both-null construction fails, value-only construction
succeeds. -/
theorem claim_C3_witness :
    BaseSetting.make J.null J.null J.null J.null
        (SettingScope.mk J.null J.null J.null J.null J.null) J.null J.null J.null
      = Except.error "Must provide either value or default_value" ∧
    BaseSetting.make J.null (J.bool true) J.null J.null
        (SettingScope.mk J.null J.null J.null J.null J.null) J.null J.null J.null
      = Except.ok (BaseSetting.mk J.null J.null (J.bool true) J.null
          (SettingScope.mk J.null J.null J.null J.null J.null) J.null J.null J.null) :=
  ⟨(claim_C3 J.null J.null J.null J.null
      (SettingScope.mk J.null J.null J.null J.null J.null) J.null J.null J.null).1 rfl,
   (claim_C3 J.null (J.bool true) J.null J.null
      (SettingScope.mk J.null J.null J.null J.null J.null) J.null J.null J.null).2 rfl⟩

/-- C5: `SettingScope.to_json` contains each of its five keys exactly when
the corresponding field is truthy, with the field's value; falsy fields
are absent from the output entirely. -/
theorem claim_C5 (s : SettingScope) :
    dfind s.to_json "type" = (if s.type.truthy then some s.type else none) ∧
    dfind s.to_json "id" = (if s.id.truthy then some s.id else none) ∧
    dfind s.to_json "role" = (if s.role.truthy then some s.role else none) ∧
    dfind s.to_json "preventOverride"
      = (if s.prevent_override.truthy then some s.prevent_override else none) ∧
    dfind s.to_json "visible"
      = (if s.visible.truthy then some s.visible else none) :=
  dfind_scope_to_json s

/-! ### Deserialization success characterization (for C4) -/

theorem make_ok_iff (dv v n vt : J) (sc : SettingScope) (m st i : J) :
    (∃ y, BaseSetting.make dv v n vt sc m st i = Except.ok y)
      ↔ (v.isNull && dv.isNull) = false := by
  unfold BaseSetting.make
  by_cases h : (v.isNull && dv.isNull) = true
  · simp [h]
  · have h' : (v.isNull && dv.isNull) = false := by simpa using h
    simp [h']

theorem make_ok_elim (dv v n vt : J) (sc : SettingScope) (m st i : J)
    (y : BaseSetting) (h : BaseSetting.make dv v n vt sc m st i = Except.ok y) :
    y = BaseSetting.mk dv n v vt sc m st i := by
  unfold BaseSetting.make at h
  by_cases hc : (v.isNull && dv.isNull) = true
  · simp [hc] at h
  · have hc' : (v.isNull && dv.isNull) = false := by simpa using hc
    simp [hc'] at h
    exact h.symm

theorem base_from_json_ok_iff (d : List (String × J)) :
    (∃ y, BaseSetting.from_json d = Except.ok y) ↔
      ((∃ kvs, dget d "scope" = J.obj kvs) ∧
       ((dget d "value").isNull = false ∨ (dget d "defaultValue").isNull = false)) := by
  unfold BaseSetting.from_json
  cases hj : dget d "scope" with
  | obj kvs =>
      simp only [SettingScope.from_json]
      rw [make_ok_iff]
      simp only [Bool.and_eq_false_iff]
      by_cases hv : (dget d "value").isNull <;> simp [hv]
  | null => simp [SettingScope.from_json]
  | bool b => simp [SettingScope.from_json]
  | str s => simp [SettingScope.from_json]
  | num n => simp [SettingScope.from_json]
  | arr xs => simp [SettingScope.from_json]

theorem base_from_json_fields (d : List (String × J)) (y : BaseSetting)
    (h : BaseSetting.from_json d = Except.ok y) :
    y.name = dget d "name" ∧ y.value = dget d "value" ∧
    y.default_value = dget d "defaultValue" ∧
    y.value_type = dget d "valueType" ∧ y.metadata = dget d "metadata" ∧
    y.setting_type = dget d "settingType" ∧ y.id = dget d "id" := by
  unfold BaseSetting.from_json at h
  cases hj : dget d "scope" with
  | obj kvs =>
      rw [hj] at h
      simp only [SettingScope.from_json] at h
      rw [make_ok_elim _ _ _ _ _ _ _ _ _ h]
      exact ⟨rfl, rfl, rfl, rfl, rfl, rfl, rfl⟩
  | null => rw [hj] at h; simp [SettingScope.from_json] at h
  | bool b => rw [hj] at h; simp [SettingScope.from_json] at h
  | str s => rw [hj] at h; simp [SettingScope.from_json] at h
  | num n => rw [hj] at h; simp [SettingScope.from_json] at h
  | arr xs => rw [hj] at h; simp [SettingScope.from_json] at h

/-- C4 (amended): `SettingScope.from_json` indeed never fails on object
inputs and maps absent keys to null; but `BaseSetting.from_json` is total
only on inputs whose `scope` key holds an object and whose `value` or
`defaultValue` is non-null — it raises otherwise (`AttributeError` when
`scope` is absent or not a dict, the constructor validation error when
both `value` and `defaultValue` are null).  Successful deserialization
maps every absent optional field to null. -/
theorem claim_C4 :
    (∀ kvs : List (String × J),
      SettingScope.from_json (J.obj kvs) = Except.ok (SettingScope.mk
        (dget kvs "type") (dget kvs "id") (dget kvs "role")
        (dget kvs "preventOverride") (dget kvs "visible"))) ∧
    (∀ d : List (String × J),
      (∃ y, BaseSetting.from_json d = Except.ok y) ↔
        ((∃ kvs, dget d "scope" = J.obj kvs) ∧
         ((dget d "value").isNull = false ∨ (dget d "defaultValue").isNull = false))) ∧
    (∀ (d : List (String × J)) (y : BaseSetting),
      BaseSetting.from_json d = Except.ok y →
      y.name = dget d "name" ∧ y.value = dget d "value" ∧
      y.default_value = dget d "defaultValue" ∧
      y.value_type = dget d "valueType" ∧ y.metadata = dget d "metadata" ∧
      y.setting_type = dget d "settingType" ∧ y.id = dget d "id") :=
  ⟨fun _ => rfl, base_from_json_ok_iff, base_from_json_fields⟩

/-- Counterexample to C4 as stated: on the empty JSON object (no missing
key treated specially, per the claim) `BaseSetting.from_json` does not
return an entity — `scope` is absent, so `SettingScope.from_json`
receives `None` and fails. -/
theorem claim_C4_cex :
    ¬ ∃ y, BaseSetting.from_json ([] : List (String × J)) = Except.ok y := by
  rintro ⟨y, h⟩
  simp [BaseSetting.from_json, dget, dfind, SettingScope.from_json] at h

/-- Witness for C4 (amended) at the concrete input `exIn`. -/
theorem claim_C4_witness :
    (BaseSetting.mk J.null (J.str "flag1") (J.bool true) (J.str "boolean")
        (SettingScope.mk (J.str "project") (J.str "p1") J.null J.null J.null)
        J.null (J.str "feature_flag") J.null).name = dget exIn "name" ∧
    (BaseSetting.mk J.null (J.str "flag1") (J.bool true) (J.str "boolean")
        (SettingScope.mk (J.str "project") (J.str "p1") J.null J.null J.null)
        J.null (J.str "feature_flag") J.null).value = dget exIn "value" ∧
    (BaseSetting.mk J.null (J.str "flag1") (J.bool true) (J.str "boolean")
        (SettingScope.mk (J.str "project") (J.str "p1") J.null J.null J.null)
        J.null (J.str "feature_flag") J.null).default_value = dget exIn "defaultValue" ∧
    (BaseSetting.mk J.null (J.str "flag1") (J.bool true) (J.str "boolean")
        (SettingScope.mk (J.str "project") (J.str "p1") J.null J.null J.null)
        J.null (J.str "feature_flag") J.null).value_type = dget exIn "valueType" ∧
    (BaseSetting.mk J.null (J.str "flag1") (J.bool true) (J.str "boolean")
        (SettingScope.mk (J.str "project") (J.str "p1") J.null J.null J.null)
        J.null (J.str "feature_flag") J.null).metadata = dget exIn "metadata" ∧
    (BaseSetting.mk J.null (J.str "flag1") (J.bool true) (J.str "boolean")
        (SettingScope.mk (J.str "project") (J.str "p1") J.null J.null J.null)
        J.null (J.str "feature_flag") J.null).setting_type = dget exIn "settingType" ∧
    (BaseSetting.mk J.null (J.str "flag1") (J.bool true) (J.str "boolean")
        (SettingScope.mk (J.str "project") (J.str "p1") J.null J.null J.null)
        J.null (J.str "feature_flag") J.null).id = dget exIn "id" :=
  claim_C4.2.2 exIn
    (BaseSetting.mk J.null (J.str "flag1") (J.bool true) (J.str "boolean")
      (SettingScope.mk (J.str "project") (J.str "p1") J.null J.null J.null)
      J.null (J.str "feature_flag") J.null) rfl

/-! ### Filter stringification (for C6) -/

theorem dset_self (d : List (String × J)) (k : String) (v : J)
    (h : dfind d k = some v) : dset d k v = d := by
  induction d with
  | nil => simp [dfind] at h
  | cons hd tl ih =>
      obtain ⟨a, b⟩ := hd
      by_cases hk : k = a
      · subst hk
        simp [dfind] at h
        simp [dset, h]
      · simp [dfind, hk] at h
        simp [dset, hk, ih h]

/-- A structured example filter, held in metadata as a mapping. -/
def exFilter : J := J.obj [("name", J.str "n")]

/-- Metadata with one slot whose display scope carries `exFilter`. -/
def exMeta : J :=
  J.obj [("slots", J.arr
    [J.obj [("displayScopes", J.arr [J.obj [("filter", exFilter)]])]])]

/-- A valid base setting carrying `exMeta`. -/
def exSlotted : BaseSetting :=
  BaseSetting.mk J.null (J.str "s") (J.bool true) (J.str "boolean")
    (SettingScope.mk J.null J.null J.null J.null J.null) exMeta
    (J.str "feature_flag") J.null

/-- C6: for a base setting whose `metadata.slots` is a list (of
wire-format slots), the emitted metadata carries every slot rewritten by
`slot_to_db_slot`; truthy `displayScopes` lists are rewritten elementwise
by `fixDisplayScope`, which replaces a present `filter` by `fixFilter` of
it; and `fixFilter` turns a mapping into its `json.dumps` string while
leaving every non-mapping filter unchanged. -/
theorem claim_C6 (x : BaseSetting) (kvs : List (String × J)) (l : List J)
    (_hok : slotsOk x.metadata = true)
    (hm : x.metadata = J.obj kvs)
    (hs : dfind kvs "slots" = some (J.arr l)) :
    dfind x.to_json "metadata"
      = some (J.obj (dset kvs "slots" (J.arr (l.map slot_to_db_slot)))) ∧
    (∀ (skvs : List (String × J)) (ds : List J),
      dfind skvs "displayScopes" = some (J.arr ds) →
      (J.arr ds).truthy = true →
      slot_to_db_slot (J.obj skvs)
        = J.obj (dset skvs "displayScopes" (J.arr (ds.map fixDisplayScope)))) ∧
    (∀ (dkvs : List (String × J)) (f : J),
      dfind dkvs "filter" = some f →
      fixDisplayScope (J.obj dkvs) = J.obj (dset dkvs "filter" (fixFilter f))) ∧
    (∀ fkvs : List (String × J),
      fixFilter (J.obj fkvs) = J.str ((J.obj fkvs).dumps)) ∧
    (∀ f : J, (∀ fkvs, f ≠ J.obj fkvs) → fixFilter f = f) := by
  have hnorm : normMetadata x.metadata
      = J.obj (dset kvs "slots" (J.arr (l.map slot_to_db_slot))) := by
    rw [hm]; simp only [normMetadata, hs]
  refine ⟨?_, ?_, ?_, fun _ => rfl, ?_⟩
  · have h6 := (dfind_base x).2.2.2.2.2.1
    rw [hnorm] at h6
    simpa [J.isNull] using h6
  · intro skvs ds hd ht
    simp only [slot_to_db_slot, hd, ht, if_true]
  · intro dkvs f hf
    simp only [fixDisplayScope, hf]
    cases f with
    | obj fkvs => rfl
    | null =>
        rw [show fixFilter J.null = J.null from rfl, dset_self dkvs "filter" _ hf]
    | bool b =>
        rw [show fixFilter (J.bool b) = J.bool b from rfl, dset_self dkvs "filter" _ hf]
    | str s =>
        rw [show fixFilter (J.str s) = J.str s from rfl, dset_self dkvs "filter" _ hf]
    | num n =>
        rw [show fixFilter (J.num n) = J.num n from rfl, dset_self dkvs "filter" _ hf]
    | arr xs =>
        rw [show fixFilter (J.arr xs) = J.arr xs from rfl, dset_self dkvs "filter" _ hf]
  · intro f hf
    cases f with
    | obj fkvs => exact absurd rfl (hf fkvs)
    | _ => rfl

/-- Witness for C6 at the concrete slotted entity `exSlotted`. -/
theorem claim_C6_witness :
    dfind exSlotted.to_json "metadata"
      = some (J.obj (dset [("slots", J.arr
          [J.obj [("displayScopes", J.arr [J.obj [("filter", exFilter)]])]])]
          "slots" (J.arr ([J.obj [("displayScopes",
            J.arr [J.obj [("filter", exFilter)]])]].map slot_to_db_slot)))) :=
  (claim_C6 exSlotted
    [("slots", J.arr
      [J.obj [("displayScopes", J.arr [J.obj [("filter", exFilter)]])]])]
    [J.obj [("displayScopes", J.arr [J.obj [("filter", exFilter)]])]]
    rfl rfl rfl).1

/-! ### Setting serialization lemmas (for C7, C8) -/

theorem dfind_skip (b : Bool) (d : List (String × J)) (key : String) (v : J)
    (k : String) (h : k ≠ key) :
    dfind (if b then d else dset d key v) k = dfind d k := by
  cases b <;> simp [dfind_dset, h]

theorem setting_make_ok_elim (v n vt : J) (sc : SettingScope)
    (sn dv inp md de ic i ssn hh : J) (s : Setting)
    (h : Setting.make v n vt sc sn dv inp md de ic i ssn hh = Except.ok s) :
    s = Setting.mk (BaseSetting.mk dv n v vt sc md
      SettingsTypes.USER_SETTINGS i) de inp ic sn hh ssn := by
  unfold Setting.make at h
  cases hb : BaseSetting.make dv v n vt sc md SettingsTypes.USER_SETTINGS i with
  | error e => rw [hb] at h; simp at h
  | ok b =>
      rw [hb] at h
      simp at h
      rw [make_ok_elim _ _ _ _ _ _ _ _ _ hb] at h
      exact h.symm

/-- Lookup of a key that is none of the seven keys written by
`Setting.to_json` itself falls through to the base serialization. -/
theorem dfind_setting_fresh (s : Setting) (k : String)
    (h1 : k ≠ "description") (h2 : k ≠ "inputs") (h3 : k ≠ "icon")
    (h4 : k ≠ "sectionName") (h5 : k ≠ "hint") (h6 : k ≠ "subSectionName")
    (h7 : k ≠ "id") :
    dfind s.to_json k = dfind s.toBaseSetting.to_json k := by
  unfold Setting.to_json Setting.to_json_run
  simp only
  rw [dfind_skip _ _ _ _ _ h7, dfind_skip _ _ _ _ _ h6,
    dfind_skip _ _ _ _ _ h5, dfind_skip _ _ _ _ _ h4,
    dfind_skip _ _ _ _ _ h3, dfind_skip _ _ _ _ _ h2,
    dfind_skip _ _ _ _ _ h1]
  rfl

theorem dfind_write (b : Bool) (d : List (String × J)) (key : String) (v : J) :
    dfind (if b then d else dset d key v) key
      = if b then dfind d key else some v := by
  cases b <;> simp [dfind_dset]

/-- `id` keeps its base value through `Setting.to_json`: the conditional
re-assignment writes back the same field. -/
theorem dfind_setting_id (s : Setting) :
    dfind s.to_json "id" = some s.toBaseSetting.id := by
  unfold Setting.to_json Setting.to_json_run
  simp only
  rw [dfind_write]
  by_cases hb : s.toBaseSetting.id.isNull
  · rw [if_pos hb]
    rw [dfind_skip _ _ _ _ _ (by decide), dfind_skip _ _ _ _ _ (by decide),
      dfind_skip _ _ _ _ _ (by decide), dfind_skip _ _ _ _ _ (by decide),
      dfind_skip _ _ _ _ _ (by decide), dfind_skip _ _ _ _ _ (by decide)]
    exact (dfind_base s.toBaseSetting).2.2.2.2.1
  · rw [if_neg hb]


theorem base_to_json_run_fst (x : BaseSetting) : x.to_json_run.1 = x.to_json := rfl

/-- Each `Setting`-specific key of `Setting.to_json` is present exactly
when the corresponding field is non-null. -/
theorem dfind_setting_extra (s : Setting) :
    dfind s.to_json "description"
      = (if s.description.isNull then none else some s.description) ∧
    dfind s.to_json "inputs"
      = (if s.inputs.isNull then none else some s.inputs) ∧
    dfind s.to_json "icon"
      = (if s.icon.isNull then none else some s.icon) ∧
    dfind s.to_json "sectionName"
      = (if s.section_name.isNull then none else some s.section_name) ∧
    dfind s.to_json "hint"
      = (if s.hint.isNull then none else some s.hint) ∧
    dfind s.to_json "subSectionName"
      = (if s.sub_section_name.isNull then none else some s.sub_section_name) := by
  refine ⟨?_, ?_, ?_, ?_, ?_, ?_⟩ <;>
    unfold Setting.to_json Setting.to_json_run <;> simp only
  · rw [dfind_skip _ _ _ _ _ (by decide), dfind_skip _ _ _ _ _ (by decide),
      dfind_skip _ _ _ _ _ (by decide), dfind_skip _ _ _ _ _ (by decide),
      dfind_skip _ _ _ _ _ (by decide), dfind_skip _ _ _ _ _ (by decide),
      dfind_write, base_to_json_run_fst,
      dfind_base_other s.toBaseSetting _ (by decide) (by decide) (by decide)
        (by decide) (by decide) (by decide) (by decide) (by decide)]
  · rw [dfind_skip _ _ _ _ _ (by decide), dfind_skip _ _ _ _ _ (by decide),
      dfind_skip _ _ _ _ _ (by decide), dfind_skip _ _ _ _ _ (by decide),
      dfind_skip _ _ _ _ _ (by decide), dfind_write,
      dfind_skip _ _ _ _ _ (by decide), base_to_json_run_fst,
      dfind_base_other s.toBaseSetting _ (by decide) (by decide) (by decide)
        (by decide) (by decide) (by decide) (by decide) (by decide)]
  · rw [dfind_skip _ _ _ _ _ (by decide), dfind_skip _ _ _ _ _ (by decide),
      dfind_skip _ _ _ _ _ (by decide), dfind_skip _ _ _ _ _ (by decide),
      dfind_write, dfind_skip _ _ _ _ _ (by decide),
      dfind_skip _ _ _ _ _ (by decide), base_to_json_run_fst,
      dfind_base_other s.toBaseSetting _ (by decide) (by decide) (by decide)
        (by decide) (by decide) (by decide) (by decide) (by decide)]
  · rw [dfind_skip _ _ _ _ _ (by decide), dfind_skip _ _ _ _ _ (by decide),
      dfind_skip _ _ _ _ _ (by decide), dfind_write,
      dfind_skip _ _ _ _ _ (by decide), dfind_skip _ _ _ _ _ (by decide),
      dfind_skip _ _ _ _ _ (by decide), base_to_json_run_fst,
      dfind_base_other s.toBaseSetting _ (by decide) (by decide) (by decide)
        (by decide) (by decide) (by decide) (by decide) (by decide)]
  · rw [dfind_skip _ _ _ _ _ (by decide), dfind_skip _ _ _ _ _ (by decide),
      dfind_write, dfind_skip _ _ _ _ _ (by decide),
      dfind_skip _ _ _ _ _ (by decide), dfind_skip _ _ _ _ _ (by decide),
      dfind_skip _ _ _ _ _ (by decide), base_to_json_run_fst,
      dfind_base_other s.toBaseSetting _ (by decide) (by decide) (by decide)
        (by decide) (by decide) (by decide) (by decide) (by decide)]
  · rw [dfind_skip _ _ _ _ _ (by decide), dfind_write,
      dfind_skip _ _ _ _ _ (by decide), dfind_skip _ _ _ _ _ (by decide),
      dfind_skip _ _ _ _ _ (by decide), dfind_skip _ _ _ _ _ (by decide),
      dfind_skip _ _ _ _ _ (by decide), base_to_json_run_fst,
      dfind_base_other s.toBaseSetting _ (by decide) (by decide) (by decide)
        (by decide) (by decide) (by decide) (by decide) (by decide)]

/-- `settingType` read back from `Setting.to_json` is the base field. -/
theorem dfind_setting_settingType (s : Setting) :
    dfind s.to_json "settingType" = some s.toBaseSetting.setting_type := by
  rw [dfind_setting_fresh s _ (by decide) (by decide) (by decide) (by decide)
    (by decide) (by decide) (by decide)]
  exact (dfind_base s.toBaseSetting).2.2.2.1

/-- C7: every `Setting` — built directly or deserialized from any input
JSON, whatever `settingType` that JSON carries — has `setting_type` equal
to `user_settings`, and serializes `settingType` to `user_settings`. -/
theorem claim_C7 :
    (∀ (d : List (String × J)) (s : Setting),
      Setting.from_json d = Except.ok s →
      s.toBaseSetting.setting_type = SettingsTypes.USER_SETTINGS ∧
      dfind s.to_json "settingType" = some SettingsTypes.USER_SETTINGS) ∧
    (∀ (v n vt : J) (sc : SettingScope) (sn dv inp md de ic i ssn hh : J)
      (s : Setting),
      Setting.make v n vt sc sn dv inp md de ic i ssn hh = Except.ok s →
      s.toBaseSetting.setting_type = SettingsTypes.USER_SETTINGS ∧
      dfind s.to_json "settingType" = some SettingsTypes.USER_SETTINGS) := by
  have hmk : ∀ (v n vt : J) (sc : SettingScope) (sn dv inp md de ic i ssn hh : J)
      (s : Setting),
      Setting.make v n vt sc sn dv inp md de ic i ssn hh = Except.ok s →
      s.toBaseSetting.setting_type = SettingsTypes.USER_SETTINGS ∧
      dfind s.to_json "settingType" = some SettingsTypes.USER_SETTINGS := by
    intro v n vt sc sn dv inp md de ic i ssn hh s h
    have he := setting_make_ok_elim _ _ _ _ _ _ _ _ _ _ _ _ _ _ h
    have h1 : s.toBaseSetting.setting_type = SettingsTypes.USER_SETTINGS := by
      rw [he]
    exact ⟨h1, by rw [dfind_setting_settingType, h1]⟩
  refine ⟨?_, hmk⟩
  intro d s h
  unfold Setting.from_json at h
  cases hs : SettingScope.from_json (dget d "scope") with
  | error e => rw [hs] at h; simp at h
  | ok sc =>
      rw [hs] at h
      exact hmk _ _ _ _ _ _ _ _ _ _ _ _ _ _ h

/-- The `Setting` produced by deserializing `exIn` (whose `settingType`
says `feature_flag`). -/
def exSettingFromIn : Setting :=
  Setting.mk (BaseSetting.mk J.null (J.str "flag1") (J.bool true)
    (J.str "boolean") (SettingScope.mk (J.str "project") (J.str "p1")
      J.null J.null J.null) J.null SettingsTypes.USER_SETTINGS J.null)
    J.null J.null J.null J.null J.null J.null

/-- Witness for C7: a concrete deserialization whose input declares
`settingType` as `feature_flag`, yet the resulting `Setting` carries
`user_settings`. -/
theorem claim_C7_witness :
    exSettingFromIn.toBaseSetting.setting_type = SettingsTypes.USER_SETTINGS ∧
    dfind exSettingFromIn.to_json "settingType"
      = some SettingsTypes.USER_SETTINGS :=
  claim_C7.1 exIn exSettingFromIn rfl

/-- C8: `Setting.to_json` output is a superset of the base serialization
computed from the same base fields — every base key appears with the same
value (the conditional second write of `id` never changes it) — plus each
`Setting`-specific key exactly when its field is non-null. -/
theorem claim_C8 (s : Setting) :
    (∀ (k : String) (v : J),
      dfind s.toBaseSetting.to_json k = some v → dfind s.to_json k = some v) ∧
    dfind s.to_json "description"
      = (if s.description.isNull then none else some s.description) ∧
    dfind s.to_json "inputs"
      = (if s.inputs.isNull then none else some s.inputs) ∧
    dfind s.to_json "icon"
      = (if s.icon.isNull then none else some s.icon) ∧
    dfind s.to_json "sectionName"
      = (if s.section_name.isNull then none else some s.section_name) ∧
    dfind s.to_json "hint"
      = (if s.hint.isNull then none else some s.hint) ∧
    dfind s.to_json "subSectionName"
      = (if s.sub_section_name.isNull then none else some s.sub_section_name) := by
  refine ⟨?_, dfind_setting_extra s⟩
  intro k v h
  by_cases h7 : k = "id"
  · subst h7
    rw [(dfind_base s.toBaseSetting).2.2.2.2.1] at h
    rw [dfind_setting_id]
    exact h
  · by_cases h1 : k = "description"
    · subst h1
      rw [dfind_base_other s.toBaseSetting _ (by decide) (by decide)
        (by decide) (by decide) (by decide) (by decide) (by decide)
        (by decide)] at h
      cases h
    · by_cases h2 : k = "inputs"
      · subst h2
        rw [dfind_base_other s.toBaseSetting _ (by decide) (by decide)
          (by decide) (by decide) (by decide) (by decide) (by decide)
          (by decide)] at h
        cases h
      · by_cases h3 : k = "icon"
        · subst h3
          rw [dfind_base_other s.toBaseSetting _ (by decide) (by decide)
            (by decide) (by decide) (by decide) (by decide) (by decide)
            (by decide)] at h
          cases h
        · by_cases h4 : k = "sectionName"
          · subst h4
            rw [dfind_base_other s.toBaseSetting _ (by decide) (by decide)
              (by decide) (by decide) (by decide) (by decide) (by decide)
              (by decide)] at h
            cases h
          · by_cases h5 : k = "hint"
            · subst h5
              rw [dfind_base_other s.toBaseSetting _ (by decide) (by decide)
                (by decide) (by decide) (by decide) (by decide) (by decide)
                (by decide)] at h
              cases h
            · by_cases h6 : k = "subSectionName"
              · subst h6
                rw [dfind_base_other s.toBaseSetting _ (by decide) (by decide)
                  (by decide) (by decide) (by decide) (by decide) (by decide)
                  (by decide)] at h
                cases h
              · rw [dfind_setting_fresh s k h1 h2 h3 h4 h5 h6 h7]
                exact h

/-- A concrete `Setting` for the C8 witness. -/
def exSetting : Setting :=
  Setting.mk (BaseSetting.mk J.null (J.str "flag1") (J.bool true)
    (J.str "boolean") (SettingScope.mk (J.str "project") (J.str "p1")
      J.null J.null J.null) J.null SettingsTypes.USER_SETTINGS J.null)
    (J.str "a setting") J.null J.null (J.str "Platform") J.null J.null

/-- Witness for C8 at `exSetting` and the base key `name`. -/
theorem claim_C8_witness :
    dfind exSetting.to_json "name" = some (J.str "flag1") :=
  (claim_C8 exSetting).1 "name" (J.str "flag1") rfl

/-- C9: constructing a `UserSetting` emits exactly the deprecation
warning, observable by the caller, and otherwise delegates to `Setting`:
the constructed entity is the one `Setting`'s constructor builds from the
same field values, and `from_json` is inherited from `Setting`
unchanged. -/
theorem claim_C9 (dv v n vt : J) (sc : SettingScope)
    (sn inp md de ic i ssn hh : J) :
    (UserSetting.make dv v n vt sc sn inp md de ic i ssn hh).1
      = [userSettingDeprecationMsg] ∧
    (UserSetting.make dv v n vt sc sn inp md de ic i ssn hh).2
      = Setting.make v n vt sc sn dv inp md de ic i ssn hh ∧
    (∀ d : List (String × J), UserSetting.from_json d = Setting.from_json d) :=
  ⟨rfl, rfl, fun _ => rfl⟩

/-! ### Frame effect of to_json (for C10) -/

/-- A display scope holding no structured (mapping) filter. -/
def noObjFilter (d : J) : Bool :=
  match d with
  | J.obj kvs =>
      match dfind kvs "filter" with
      | some (J.obj _) => false
      | _ => true
  | _ => true

/-- A slot none of whose display scopes holds a structured filter. -/
def noObjFiltersSlot (slot : J) : Bool :=
  match slot with
  | J.obj kvs =>
      match dfind kvs "displayScopes" with
      | some (J.arr ds) => ds.all noObjFilter
      | _ => true
  | _ => true

/-- Metadata none of whose slots holds a structured filter: every filter
is already string-encoded (or absent). -/
def noObjFilters (m : J) : Bool :=
  match m with
  | J.obj kvs =>
      match dfind kvs "slots" with
      | some (J.arr l) => l.all noObjFiltersSlot
      | _ => true
  | _ => true

theorem noObjFilter_fix (d : J) : noObjFilter (fixDisplayScope d) = true := by
  cases d with
  | obj kvs =>
      simp only [fixDisplayScope]
      cases h : dfind kvs "filter" with
      | none => simp [noObjFilter, h]
      | some f =>
          cases f with
          | obj fkvs => simp [noObjFilter, h, dfind_dset]
          | null => simp [noObjFilter, h]
          | bool b => simp [noObjFilter, h]
          | str s => simp [noObjFilter, h]
          | num n => simp [noObjFilter, h]
          | arr xs => simp [noObjFilter, h]
  | _ => rfl

theorem goodSlot_noObj (slot : J) (h : goodSlot slot = true) :
    noObjFiltersSlot (slot_to_db_slot slot) = true := by
  cases slot with
  | obj kvs =>
      simp only [goodSlot] at h
      simp only [slot_to_db_slot]
      cases hd : dfind kvs "displayScopes" with
      | none => simp [noObjFiltersSlot, hd]
      | some scopes =>
          rw [hd] at h
          by_cases ht : scopes.truthy
          · cases scopes with
            | arr ds =>
                simp only [ht, if_true]
                simp [noObjFiltersSlot, dfind_dset, List.all_eq_true]
                intro d _
                exact noObjFilter_fix d
            | null => simp [ht] at h
            | bool b => simp [ht] at h
            | str str => simp [ht] at h
            | num n => simp [ht] at h
            | obj o => simp [ht] at h
          · simp only [hd, ht, Bool.false_eq_true, if_false]
            simp only [noObjFiltersSlot]
            rw [hd]
            cases scopes with
            | arr ds =>
                cases ds with
                | nil => rfl
                | cons a rest => simp [J.truthy] at ht
            | null => rfl
            | bool b => rfl
            | str st => rfl
            | num n => rfl
            | obj o => rfl
  | null => simp [goodSlot] at h
  | bool b => simp [goodSlot] at h
  | str st => simp [goodSlot] at h
  | num n => simp [goodSlot] at h
  | arr xs => simp [goodSlot] at h

theorem noObjFilters_norm (m : J) (h : slotsOk m = true) :
    noObjFilters (normMetadata m) = true := by
  cases m with
  | obj kvs =>
      simp only [slotsOk] at h
      simp only [normMetadata]
      cases hs : dfind kvs "slots" with
      | none => simp [noObjFilters, hs]
      | some v =>
          rw [hs] at h
          cases v with
          | arr l =>
              simp [noObjFilters, dfind_dset, List.all_eq_true]
              intro slot hslot
              rw [List.all_eq_true] at h
              exact goodSlot_noObj slot (h slot hslot)
          | null => simp [noObjFilters, hs]
          | bool b => simp [noObjFilters, hs]
          | str st => simp [noObjFilters, hs]
          | num n => simp [noObjFilters, hs]
          | obj o => simp [noObjFilters, hs]
  | null => rfl
  | bool b => simp [slotsOk] at h
  | str st => simp [slotsOk] at h
  | num n => simp [slotsOk] at h
  | arr xs => simp [slotsOk] at h

/-- A second serialization of the post-call entity returns the same
output: the slot normalization is idempotent. -/
theorem to_json_stable (x : BaseSetting) :
    x.to_json_run.2.to_json_run.1 = x.to_json_run.1 := by
  have h : x.to_json_run.2.to_json = x.to_json := by
    rw [to_json_post, base_to_json_eq, base_to_json_eq]
    simp [normMetadata_idem]
  exact h


/-- C10: `BaseSetting.to_json` is not read-only — for wire-format
metadata, the call leaves the entity with `metadata` replaced by its slot
normalization (every `slots[i].displayScopes[j].filter` that was a mapping
is now its string encoding, so no structured filter remains in memory),
leaves every other field unchanged, and a second call returns the same
output as the first. -/
theorem claim_C10 (x : BaseSetting) (hok : slotsOk x.metadata = true) :
    x.to_json_run.2.metadata = normMetadata x.metadata ∧
    (∀ (kvs : List (String × J)) (l : List J),
      x.metadata = J.obj kvs → dfind kvs "slots" = some (J.arr l) →
      x.to_json_run.2.metadata
        = J.obj (dset kvs "slots" (J.arr (l.map slot_to_db_slot)))) ∧
    noObjFilters x.to_json_run.2.metadata = true ∧
    x.to_json_run.2.default_value = x.default_value ∧
    x.to_json_run.2.name = x.name ∧
    x.to_json_run.2.value = x.value ∧
    x.to_json_run.2.value_type = x.value_type ∧
    x.to_json_run.2.scope = x.scope ∧
    x.to_json_run.2.setting_type = x.setting_type ∧
    x.to_json_run.2.id = x.id ∧
    x.to_json_run.2.to_json_run.1 = x.to_json_run.1 := by
  have hmeta : x.to_json_run.2.metadata = normMetadata x.metadata := by
    rw [to_json_post]
  refine ⟨hmeta, ?_, ?_, ?_, ?_, ?_, ?_, ?_, ?_, ?_, to_json_stable x⟩
  · intro kvs l hm hs
    rw [hmeta, hm]
    simp only [normMetadata, hs]
  · rw [hmeta]
    exact noObjFilters_norm x.metadata hok
  all_goals rw [to_json_post]

/-- Witness for C10 at the concrete slotted entity `exSlotted`. -/
theorem claim_C10_witness :
    exSlotted.to_json_run.2.metadata = normMetadata exSlotted.metadata ∧
    noObjFilters exSlotted.to_json_run.2.metadata = true :=
  ⟨(claim_C10 exSlotted rfl).1, (claim_C10 exSlotted rfl).2.2.1⟩

end Dtlpy
